import Mathlib

/-!
Verification development for the draft-room server in `src/main.py`.

The server keeps all state in two module-level Python dicts:
`rooms : Dict[str, room-dict]` and `connected_clients : Dict[str, Dict[str, WebSocket]]`.
We embed dicts as association lists (`List (String × α)`) with the usual
Python semantics: assignment replaces the value of an existing key in place
(preserving insertion order) and appends a fresh key at the end; `del`
removes the key; lookup returns the first (unique) binding.
Transport handles (WebSocket objects) are opaque; we record only the client
ids that key them.  Outbound traffic (`websocket.send_json`,
`broadcast_room_status`) is modelled as a list of `Event`s returned by each
operation; a delivery failure is swallowed by the code
(`try/except` around `send_json`) and does not affect state, so events
record attempted sends.
-/

/-- Enum `PlayerCountType(str, Enum)` from `main.py`. -/
inductive PlayerCountType where
  | solo
  | representative
  | team
deriving DecidableEq, Repr

/-- Model `GameSettings(BaseModel)`: version, draftMode, matchFormat, playerCount, timeLimit. -/
structure GameSettings where
  version : String
  draftMode : String
  matchFormat : String
  playerCount : PlayerCountType
  timeLimit : String
deriving DecidableEq, Repr

/-- Model `GameResult(BaseModel)`: winner ("team1" or "team2") and a score dict. -/
structure GameResult where
  winner : String
  score : List (String × Int)
deriving DecidableEq, Repr

/-- Model `LobbyUser(BaseModel)`. -/
structure LobbyUser where
  id : String
  nickname : String
  team : String
  position : Int
  isReady : Bool
  isHost : Bool
deriving DecidableEq, Repr

/-- Model `LobbyStatus(BaseModel)`: the lobby-status projection sent by
`get_lobby_status` and by `broadcast_room_status`. -/
structure LobbyStatus where
  gameCode : String
  settings : GameSettings
  users : List LobbyUser
  status : String
  currentSet : Nat
  allReady : Bool
deriving DecidableEq, Repr

/-- One room dict, as initialised by `create_room`.  The `participants` and
`spectators` dicts map client ids to connection metadata; only the keys
matter to the logic, so we keep the key lists (in insertion order). -/
structure Room where
  bans : List (Option String)
  picks : List (Option String)
  settings : GameSettings
  status : String
  participants : List String
  spectators : List String
  currentSet : Nat
  results : List GameResult
  users : List LobbyUser
deriving DecidableEq, Repr

/-- Python dict lookup `d[k]` / `k in d`, on an association list. -/
def lookupA {α : Type} : List (String × α) → String → Option α
  | [], _ => none
  | p :: rest, k => if p.1 = k then some p.2 else lookupA rest k

/-- Python dict assignment `d[k] = v`: replace the binding of an existing
key in place, otherwise append the new binding. -/
def setA {α : Type} : List (String × α) → String → α → List (String × α)
  | [], k, v => [(k, v)]
  | p :: rest, k, v => if p.1 = k then (k, v) :: rest else p :: setA rest k v

/-- Python `del d[k]` (keys are unique, so removing every binding of `k`
agrees with removing the one binding). -/
def eraseA {α : Type} : List (String × α) → String → List (String × α)
  | [], _ => []
  | p :: rest, k => if p.1 = k then eraseA rest k else p :: eraseA rest k

/-- Adding a key to a Python dict whose values we ignore: no-op when the
key is present, append otherwise. -/
def insertKey (l : List String) (k : String) : List String :=
  if k ∈ l then l else l ++ [k]

/-- The whole mutable module state: the `rooms` dict and the
`connected_clients` dict (each room's inner dict kept as its key list). -/
structure ServerState where
  rooms : List (String × Room)
  connectedClients : List (String × List String)
deriving DecidableEq, Repr

/-- An attempted outbound send: either the raw room snapshot
(`websocket.send_json(room)`) or the `status_update` envelope sent by
`broadcast_room_status`. -/
inductive Event where
  | sendRoom (clientId : String) (room : Room)
  | statusUpdate (clientId : String) (status : LobbyStatus)
deriving DecidableEq, Repr

/-- Table `PARTICIPANT_LIMITS` from `main.py`. -/
def PARTICIPANT_LIMITS : PlayerCountType → Nat
  | PlayerCountType.solo => 1
  | PlayerCountType.representative => 2
  | PlayerCountType.team => 10

/-- The `all_ready` expression computed (identically) in
`broadcast_room_status` and `get_lobby_status`:
`all(user["isReady"] or user["isHost"] for user in room["users"] if user["team"] != "SPECTATOR")`. -/
def all_ready (users : List LobbyUser) : Bool :=
  (users.filter (fun u => u.team != "SPECTATOR")).all (fun u => u.isReady || u.isHost)

/-- The `LobbyStatus` value both `broadcast_room_status` and
`get_lobby_status` build from a room. -/
def mkLobbyStatus (game_code : String) (room : Room) : LobbyStatus :=
  { gameCode := game_code
    settings := room.settings
    users := room.users
    status := room.status
    currentSet := room.currentSet
    allReady := all_ready room.users }

/-- Function `broadcast_room_status(game_code)`: returns without sending when the
room is missing from `rooms` or from `connected_clients`; otherwise sends
the status-update envelope to every connected client of the room. -/
def broadcast_room_status (s : ServerState) (game_code : String) : List Event :=
  match lookupA s.rooms game_code, lookupA s.connectedClients game_code with
  | some room, some clients =>
      clients.map (fun c => Event.statusUpdate c (mkLobbyStatus game_code room))
  | _, _ => []

/-- The fresh room dict built by `create_room`. -/
def initRoom (settings : GameSettings) : Room :=
  { bans := []
    picks := []
    settings := settings
    status := "waiting"
    participants := []
    spectators := []
    currentSet := 1
    results := []
    users := [] }

/-- Endpoint `create_room` (after settings validation): store a fresh room under the
generated id. -/
def create_room (s : ServerState) (room_id : String) (settings : GameSettings) : ServerState :=
  { s with rooms := setA s.rooms room_id (initRoom settings) }

/-- The state transition performed on the room dict by both
`submit_game_result` (lines 193-196) and the `submit_result` action of the
websocket loop (lines 330-333): append the result, advance `currentSet`,
clear bans and picks. -/
def applySubmitResult (room : Room) (result : GameResult) : Room :=
  { room with
    results := room.results ++ [result]
    currentSet := room.currentSet + 1
    bans := []
    picks := [] }

/-- Endpoint `submit_game_result` (`POST /game/{game_code}/result`): 404 when the
room is missing, otherwise apply `applySubmitResult` and answer with the
new `currentSet`.  Note: unlike the other mutating HTTP endpoints it does
not call `broadcast_room_status`, so its event list is empty. -/
def submit_game_result (s : ServerState) (game_code : String) (result : GameResult) :
    Except String (ServerState × Nat × List Event) :=
  match lookupA s.rooms game_code with
  | none => Except.error "Room not found"
  | some room =>
      let room2 := applySubmitResult room result
      Except.ok ({ s with rooms := setA s.rooms game_code room2 }, room2.currentSet, [])

/-- Endpoint `join_lobby` (`POST /game/{game_code}/join`): 404 when the room is
missing; `user_data["nickname"]` raises `KeyError` when absent (modelled by
the `none` branch, which mutates nothing); otherwise build the new
`LobbyUser` (host iff `users` was empty), append it and broadcast. -/
def join_lobby (s : ServerState) (game_code : String) (user_id : String)
    (nickname : Option String) :
    Except String (ServerState × LobbyUser × List Event) :=
  match lookupA s.rooms game_code with
  | none => Except.error "Room not found"
  | some room =>
      match nickname with
      | none => Except.error "KeyError: nickname"
      | some nick =>
          let new_user : LobbyUser :=
            { id := user_id
              nickname := nick
              team := "SPECTATOR"
              position := -1
              isReady := false
              isHost := room.users.length = 0 }
          let room2 := { room with users := room.users ++ [new_user] }
          let s2 := { s with rooms := setA s.rooms game_code room2 }
          Except.ok (s2, new_user, broadcast_room_status s2 game_code)

/-- In-place update of the first user with the given id, mirroring how the
Python code mutates the dict object returned by
`next((u for u in room["users"] if u["id"] == user_id), None)`. -/
def updateFirstUser : List LobbyUser → String → (LobbyUser → LobbyUser) → List LobbyUser
  | [], _, _ => []
  | u :: rest, uid, f =>
      if u.id = uid then f u :: rest else u :: updateFirstUser rest uid f

/-- The `team_data` dict of `update_team` and of the websocket
`update_team` action; `team_data["team"]` / `["position"]` raise `KeyError`
when the key is absent (modelled by the `none` branches). -/
structure RawTeamData where
  team : Option String
  position : Option Int
deriving DecidableEq, Repr

/-- Endpoint `update_team` (`PATCH /game/{game_code}/user/{user_id}/team`).
Python executes `user["team"] = team_data["team"]` and then
`user["position"] = team_data["position"]`, so a missing `position` key
raises only after `team` is already updated; the returned Bool flags a
raised error, with the mutations performed before the raise kept. -/
def update_team (s : ServerState) (game_code user_id : String) (team_data : RawTeamData) :
    ServerState × Bool × List Event :=
  match lookupA s.rooms game_code with
  | none => (s, true, [])
  | some room =>
      match room.users.find? (fun u => u.id == user_id) with
      | none => (s, true, [])
      | some _ =>
          match team_data.team with
          | none => (s, true, [])
          | some t =>
              let room1 :=
                { room with users := updateFirstUser room.users user_id (fun u => { u with team := t }) }
              let s1 := { s with rooms := setA s.rooms game_code room1 }
              match team_data.position with
              | none => (s1, true, [])
              | some p =>
                  let room2 :=
                    { room1 with users := updateFirstUser room1.users user_id (fun u => { u with position := p }) }
                  let s2 := { s with rooms := setA s.rooms game_code room2 }
                  (s2, false, broadcast_room_status s2 game_code)

/-- Endpoint `update_ready_status` (`PATCH /game/{game_code}/user/{user_id}/ready`);
`ready_data["isReady"]` raises `KeyError` when absent. -/
def update_ready_status (s : ServerState) (game_code user_id : String) (ready_data : Option Bool) :
    ServerState × Bool × List Event :=
  match lookupA s.rooms game_code with
  | none => (s, true, [])
  | some room =>
      match room.users.find? (fun u => u.id == user_id) with
      | none => (s, true, [])
      | some _ =>
          match ready_data with
          | none => (s, true, [])
          | some b =>
              let room1 :=
                { room with users := updateFirstUser room.users user_id (fun u => { u with isReady := b }) }
              let s1 := { s with rooms := setA s.rooms game_code room1 }
              (s1, false, broadcast_room_status s1 game_code)

/-- The connection-opening prefix of `websocket_endpoint` (lines 264-306):
close (refuse) when the `id` query parameter is falsy or unknown, when the
room's mode is solo, or when a participant would exceed
`PARTICIPANT_LIMITS`; otherwise record the client in the room's
participant/spectator dict and in `connected_clients`.  `none` models a
refused connection. -/
def wsAttach (s : ServerState) (room_id_param : Option String) (is_spectator : Bool)
    (client_id : String) : Option ServerState :=
  match room_id_param with
  | none => none
  | some room_id =>
      if room_id = "" then none
      else
        match lookupA s.rooms room_id with
        | none => none
        | some room =>
            if room.settings.playerCount = PlayerCountType.solo then none
            else if !is_spectator ∧
                room.participants.length ≥ PARTICIPANT_LIMITS room.settings.playerCount then none
            else
              let room1 :=
                if is_spectator then
                  { room with spectators := insertKey room.spectators client_id }
                else
                  { room with participants := insertKey room.participants client_id }
              let clients :=
                match lookupA s.connectedClients room_id with
                | none => [client_id]
                | some l => insertKey l client_id
              some
                { rooms := setA s.rooms room_id room1
                  connectedClients := setA s.connectedClients room_id clients }

/-- One decoded inbound JSON message of the websocket loop; every field is
read with `data.get(...)`, so each is optional. -/
structure RawResult where
  winner : Option String
  score : Option (List (String × Int))
deriving DecidableEq, Repr

/-- The shape of one inbound websocket message after JSON decoding. -/
structure InboundMsg where
  action : Option String
  champion : Option String
  result : Option RawResult
  userId : Option String
  teamData : Option RawTeamData
  isReady : Option Bool
deriving DecidableEq, Repr

/-- The per-message mutation of the websocket loop (lines 317-350), acting
on the room dict.  The Bool flags an uncaught exception: `GameResult(**…)`
raising a validation error on a malformed `result`, or `team_data[…]`
raising on a malformed `update_team` payload; mutations performed before
the raise are kept.  A `None` stored by `update_ready` (when `isReady` is
absent) is falsy wherever the field is read, so it is modelled as `false`.
Spectator messages, unknown actions and unknown target users change
nothing. -/
def handleMessage (room : Room) (is_spectator : Bool) (msg : InboundMsg) : Room × Bool :=
  if is_spectator then (room, false)
  else if msg.action = some "ban" then
    ({ room with bans := room.bans ++ [msg.champion] }, false)
  else if msg.action = some "pick" then
    ({ room with picks := room.picks ++ [msg.champion] }, false)
  else if msg.action = some "submit_result" then
    let raw := msg.result.getD { winner := none, score := none }
    match raw.winner, raw.score with
    | some w, some sc => (applySubmitResult room { winner := w, score := sc }, false)
    | _, _ => (room, true)
  else if msg.action = some "update_team" then
    match room.users.find? (fun u => some u.id == msg.userId) with
    | none => (room, false)
    | some target =>
        match msg.teamData with
        | none => (room, true)
        | some td =>
            match td.team with
            | none => (room, true)
            | some t =>
                let room1 :=
                  { room with users := updateFirstUser room.users target.id (fun u => { u with team := t }) }
                match td.position with
                | none => (room1, true)
                | some p =>
                    ({ room1 with users := updateFirstUser room1.users target.id (fun u => { u with position := p }) }, false)
  else if msg.action = some "update_ready" then
    match room.users.find? (fun u => some u.id == msg.userId) with
    | none => (room, false)
    | some target =>
        ({ room with users := updateFirstUser room.users target.id (fun u => { u with isReady := msg.isReady.getD false }) }, false)
  else (room, false)

/-- One iteration of the websocket receive loop (lines 315-353): apply the
message to the room, then — unless an exception escaped — echo the raw room
snapshot to the sender and broadcast the status update to every connected
client of the room. -/
def wsIterate (s : ServerState) (room_id client_id : String) (is_spectator : Bool)
    (msg : InboundMsg) : ServerState × Bool × List Event :=
  match lookupA s.rooms room_id with
  | none => (s, true, [])
  | some room =>
      let step := handleMessage room is_spectator msg
      let s1 := { s with rooms := setA s.rooms room_id step.1 }
      if step.2 then (s1, true, [])
      else (s1, false, Event.sendRoom client_id step.1 :: broadcast_room_status s1 room_id)

/-- Lines 357-360 of the `WebSocketDisconnect` handler: guarded removal of
the client's transport handle, pruning the room's `connected_clients`
entry when it empties. -/
def removeClient (cc : List (String × List String)) (room_id client_id : String) :
    List (String × List String) :=
  match lookupA cc room_id with
  | none => cc
  | some l =>
      if client_id ∈ l then
        let l1 := l.erase client_id
        if l1 = [] then eraseA cc room_id else setA cc room_id l1
      else cc

/-- The `WebSocketDisconnect` handler (lines 355-375): prune
`connected_clients`, then `del` the client from the room's
participant/spectator dict — an unguarded `del`, so a missing key raises
`KeyError` (Bool flag; mutations before the raise are kept and the final
broadcast is skipped) — then drop the client's lobby user and broadcast.
The room lookup cannot fail in the running server (`rooms` entries are
never deleted); the `none` branch flags it as an error. -/
def handleDisconnect (s : ServerState) (room_id client_id : String) (is_spectator : Bool) :
    ServerState × Bool × List Event :=
  let s1 := { s with connectedClients := removeClient s.connectedClients room_id client_id }
  match lookupA s1.rooms room_id with
  | none => (s1, true, [])
  | some room =>
      let roleSet := if is_spectator then room.spectators else room.participants
      if client_id ∈ roleSet then
        let room1 :=
          if is_spectator then { room with spectators := room.spectators.erase client_id }
          else { room with participants := room.participants.erase client_id }
        let room2 := { room1 with users := room1.users.filter (fun u => u.id != client_id) }
        let s2 := { s1 with rooms := setA s1.rooms room_id room2 }
        (s2, false, broadcast_room_status s2 room_id)
      else (s1, true, [])

/-- Endpoint `get_lobby_status` (`GET /game/{game_code}/status`): 404 when the room
is missing, otherwise the lobby-status projection with the derived
`all_ready`. -/
def get_lobby_status (s : ServerState) (game_code : String) : Except String LobbyStatus :=
  match lookupA s.rooms game_code with
  | none => Except.error "Room not found"
  | some room => Except.ok (mkLobbyStatus game_code room)

/-- Every state-touching operation of the core, for reasoning about
arbitrary operation sequences after room creation. -/
inductive Op where
  | opCreate (room_id : String) (settings : GameSettings)
  | opSubmit (game_code : String) (result : GameResult)
  | opJoin (game_code user_id : String) (nickname : Option String)
  | opUpdateTeam (game_code user_id : String) (team_data : RawTeamData)
  | opUpdateReady (game_code user_id : String) (ready_data : Option Bool)
  | opAttach (room_id_param : Option String) (is_spectator : Bool) (client_id : String)
  | opMessage (room_id client_id : String) (is_spectator : Bool) (msg : InboundMsg)
  | opDisconnect (room_id client_id : String) (is_spectator : Bool)
deriving Repr

/-- The state reached after one operation (responses and outbound events
projected away; a refused attach or an erroring request leaves the state
the operation left behind). -/
def step (s : ServerState) : Op → ServerState
  | Op.opCreate rid st => create_room s rid st
  | Op.opSubmit g r =>
      match submit_game_result s g r with
      | Except.ok (s2, _, _) => s2
      | Except.error _ => s
  | Op.opJoin g uid nick =>
      match join_lobby s g uid nick with
      | Except.ok (s2, _, _) => s2
      | Except.error _ => s
  | Op.opUpdateTeam g uid td => (update_team s g uid td).1
  | Op.opUpdateReady g uid rd => (update_ready_status s g uid rd).1
  | Op.opAttach p sp cid => (wsAttach s p sp cid).getD s
  | Op.opMessage rid cid sp m => (wsIterate s rid cid sp m).1
  | Op.opDisconnect rid cid sp => (handleDisconnect s rid cid sp).1

/-- Run a sequence of operations. -/
def runOps (s : ServerState) (ops : List Op) : ServerState :=
  ops.foldl step s

/-- Every stored room has `status = "waiting"`. -/
def AllWaiting (s : ServerState) : Prop :=
  ∀ p ∈ s.rooms, p.2.status = "waiting"

/-- Every stored room satisfies `currentSet = len(results) + 1`. -/
def SetInvariant (s : ServerState) : Prop :=
  ∀ p ∈ s.rooms, p.2.currentSet = p.2.results.length + 1

/-- Concrete fixture: a `representative`-mode settings payload. -/
def settingsW : GameSettings :=
  { version := "14.1", draftMode := "tournament", matchFormat := "BO5",
    playerCount := PlayerCountType.representative, timeLimit := "30s" }

/-- Concrete fixture: the host user (not ready, but host). -/
def userA : LobbyUser :=
  { id := "a1", nickname := "alice", team := "BLUE", position := 0,
    isReady := false, isHost := true }

/-- Concrete fixture: a ready non-host user. -/
def userB : LobbyUser :=
  { id := "b2", nickname := "bob", team := "RED", position := 1,
    isReady := true, isHost := false }

/-- Concrete fixture: a non-ready spectator. -/
def userS : LobbyUser :=
  { id := "s3", nickname := "sam", team := "SPECTATOR", position := -1,
    isReady := false, isHost := false }

/-- Concrete fixture: a room at full participant capacity (2 of 2). -/
def roomW : Room :=
  { initRoom settingsW with users := [userA, userB], participants := ["a1", "b2"] }

/-- Concrete fixture: server state holding `roomW` with both clients
connected. -/
def stateW : ServerState :=
  { rooms := [("r1", roomW)], connectedClients := [("r1", ["a1", "b2"])] }

/-- Concrete fixture: a room one below participant capacity (1 of 2). -/
def roomW1 : Room :=
  { initRoom settingsW with users := [userA], participants := ["a1"] }

/-- Concrete fixture: server state holding `roomW1`. -/
def stateW1 : ServerState :=
  { rooms := [("r1", roomW1)], connectedClients := [("r1", ["a1"])] }

/-- Concrete fixture: a game result payload. -/
def resW : GameResult :=
  { winner := "team1", score := [("team1", 1), ("team2", 0)] }

/-- Concrete fixture: a well-formed `submit_result` channel message. -/
def msgSubmitW : InboundMsg :=
  { action := some "submit_result", champion := none,
    result := some { winner := some "team1", score := some [("team1", 1), ("team2", 0)] },
    userId := none, teamData := none, isReady := none }

/-- Concrete fixture: a message with an unrecognised action name. -/
def msgUnknownW : InboundMsg :=
  { action := some "dance", champion := none, result := none,
    userId := none, teamData := none, isReady := none }

/-- Concrete fixture: an `update_team` message naming a user id absent from
`roomW`. -/
def msgNoTargetW : InboundMsg :=
  { action := some "update_team", champion := none, result := none,
    userId := some "zz", teamData := some { team := some "BLUE", position := some 2 },
    isReady := none }

/-- Concrete fixture: the spectator user `c7`. -/
def userC : LobbyUser :=
  { id := "c7", nickname := "carol", team := "SPECTATOR", position := -1,
    isReady := false, isHost := true }

/-- Concrete fixture: a room whose only connection is the spectator `c7`
plus one extra connected client `d8`. -/
def roomD : Room :=
  { initRoom settingsW with spectators := ["c7"], users := [userC] }

/-- Concrete fixture: server state holding `roomD`. -/
def stateD : ServerState :=
  { rooms := [("r1", roomD)], connectedClients := [("r1", ["c7", "d8"])] }

theorem lookupA_setA_self {α : Type} (l : List (String × α)) (k : String) (v : α) :
    lookupA (setA l k v) k = some v := by
  induction l with
  | nil => simp [setA, lookupA]
  | cons p rest ih =>
      by_cases h : p.1 = k
      · simp [setA, h, lookupA]
      · simp [setA, h, lookupA, ih]

theorem lookupA_setA_ne {α : Type} (l : List (String × α)) (k k2 : String) (v : α)
    (h : k2 ≠ k) : lookupA (setA l k v) k2 = lookupA l k2 := by
  have hk : k ≠ k2 := Ne.symm h
  induction l with
  | nil => simp [setA, lookupA, hk]
  | cons p rest ih =>
      by_cases hp : p.1 = k
      · subst hp
        simp [setA, lookupA, hk]
      · simp [setA, hp, lookupA, ih]

theorem lookupA_setA_isSome {α : Type} (l : List (String × α)) (k k2 : String) (v : α)
    (h : (lookupA l k).isSome) :
    (lookupA (setA l k v) k2).isSome = (lookupA l k2).isSome := by
  by_cases hk : k2 = k
  · subst hk
    simp [lookupA_setA_self, h]
  · simp [lookupA_setA_ne l k k2 v hk]

theorem forall_values_setA {α : Type} (P : α → Prop) (l : List (String × α)) (k : String) (v : α)
    (hl : ∀ p ∈ l, P p.2) (hv : P v) : ∀ p ∈ setA l k v, P p.2 := by
  induction l with
  | nil =>
      intro p hp
      simp [setA] at hp
      simp [hp, hv]
  | cons q rest ih =>
      intro p hp
      by_cases h : q.1 = k
      · simp [setA, h] at hp
        rcases hp with hp | hp
        · simp [hp, hv]
        · exact hl p (List.mem_cons_of_mem q hp)
      · simp only [setA, h, if_false, List.mem_cons] at hp
        rcases hp with hp | hp
        · exact hl p (by simp [hp])
        · exact ih (fun q2 hq2 => hl q2 (List.mem_cons_of_mem q hq2)) p hp

theorem lookupA_mem {α : Type} (l : List (String × α)) (k : String) (v : α)
    (h : lookupA l k = some v) : (k, v) ∈ l := by
  induction l with
  | nil => simp [lookupA] at h
  | cons p rest ih =>
      by_cases hp : p.1 = k
      · simp [lookupA, hp] at h
        have hpv : p = (k, v) := by
          cases p
          simp only at hp h
          simp [hp, h]
        rw [← hpv]
        exact List.mem_cons_self p rest
      · simp [lookupA, hp] at h
        exact List.mem_cons_of_mem p (ih h)

theorem lookupA_eraseA_self {α : Type} (l : List (String × α)) (k : String) :
    lookupA (eraseA l k) k = none := by
  induction l with
  | nil => simp [eraseA, lookupA]
  | cons p rest ih =>
      by_cases hp : p.1 = k
      · simp [eraseA, hp, ih]
      · simp [eraseA, hp, lookupA, ih]

theorem all_ready_iff (users : List LobbyUser) :
    all_ready users = true ↔
      ∀ u ∈ users, u.team ≠ "SPECTATOR" → (u.isReady = true ∨ u.isHost = true) := by
  simp only [all_ready, List.all_eq_true, List.mem_filter, and_imp, bne_iff_ne, ne_eq,
    Bool.or_eq_true]

theorem all_ready_append_spectator (users : List LobbyUser) (u : LobbyUser)
    (h : u.team = "SPECTATOR") : all_ready (users ++ [u]) = all_ready users := by
  simp [all_ready, List.filter_append, h]

theorem handleMessage_status (room : Room) (b : Bool) (m : InboundMsg) :
    ((handleMessage room b m).1).status = room.status := by
  unfold handleMessage
  dsimp only
  repeat' split
  all_goals simp [applySubmitResult]

theorem handleMessage_set_inv (room : Room) (b : Bool) (m : InboundMsg)
    (h : room.currentSet = room.results.length + 1) :
    ((handleMessage room b m).1).currentSet = ((handleMessage room b m).1).results.length + 1 := by
  unfold handleMessage
  dsimp only
  repeat' split
  all_goals simp [applySubmitResult, h]

theorem wsIterate_fst (s : ServerState) (rid cid : String) (sp : Bool) (m : InboundMsg)
    (room : Room) (hl : lookupA s.rooms rid = some room) :
    (wsIterate s rid cid sp m).1 =
      { s with rooms := setA s.rooms rid ((handleMessage room sp m).1) } := by
  unfold wsIterate
  rw [hl]
  dsimp only
  split <;> rfl

theorem wsIterate_fst_none (s : ServerState) (rid cid : String) (sp : Bool) (m : InboundMsg)
    (hl : lookupA s.rooms rid = none) : (wsIterate s rid cid sp m).1 = s := by
  unfold wsIterate
  rw [hl]

theorem step_preserves (P : Room → Prop)
    (hinit : ∀ st, P (initRoom st))
    (hmsg : ∀ room b m, P room → P ((handleMessage room b m).1))
    (hsubmit : ∀ room r, P room → P (applySubmitResult room r))
    (husers : ∀ room us, P room → P { room with users := us })
    (hparts : ∀ room ps, P room → P { room with participants := ps })
    (hspecs : ∀ room ss, P room → P { room with spectators := ss })
    (s : ServerState) (op : Op) (h : ∀ p ∈ s.rooms, P p.2) :
    ∀ p ∈ (step s op).rooms, P p.2 := by
  cases op with
  | opCreate rid st =>
      intro p hp
      simp only [step, create_room] at hp
      exact forall_values_setA P s.rooms rid (initRoom st) h (hinit st) p hp
  | opSubmit g r =>
      intro p hp
      cases hl : lookupA s.rooms g with
      | none =>
          simp only [step, submit_game_result, hl] at hp
          exact h p hp
      | some room =>
          have hroom : P room := h (g, room) (lookupA_mem s.rooms g room hl)
          simp only [step, submit_game_result, hl] at hp
          exact forall_values_setA P s.rooms g _ h (hsubmit room r hroom) p hp
  | opJoin g uid nick =>
      intro p hp
      cases hl : lookupA s.rooms g with
      | none =>
          simp only [step, join_lobby, hl] at hp
          exact h p hp
      | some room =>
          have hroom : P room := h (g, room) (lookupA_mem s.rooms g room hl)
          cases nick with
          | none =>
              simp only [step, join_lobby, hl] at hp
              exact h p hp
          | some nk =>
              simp only [step, join_lobby, hl] at hp
              exact forall_values_setA P s.rooms g _ h (husers room _ hroom) p hp
  | opUpdateTeam g uid td =>
      intro p hp
      cases hl : lookupA s.rooms g with
      | none =>
          simp only [step, update_team, hl] at hp
          exact h p hp
      | some room =>
          have hroom : P room := h (g, room) (lookupA_mem s.rooms g room hl)
          cases hf : room.users.find? (fun u => u.id == uid) with
          | none =>
              simp only [step, update_team, hl, hf] at hp
              exact h p hp
          | some u0 =>
              cases ht : td.team with
              | none =>
                  simp only [step, update_team, hl, hf, ht] at hp
                  exact h p hp
              | some t =>
                  cases hq : td.position with
                  | none =>
                      simp only [step, update_team, hl, hf, ht, hq] at hp
                      exact forall_values_setA P s.rooms g _ h (husers room _ hroom) p hp
                  | some q =>
                      simp only [step, update_team, hl, hf, ht, hq] at hp
                      exact forall_values_setA P s.rooms g _ h
                        (husers { room with users := updateFirstUser room.users uid fun u => { u with team := t } } _
                          (husers room _ hroom)) p hp
  | opUpdateReady g uid rd =>
      intro p hp
      cases hl : lookupA s.rooms g with
      | none =>
          simp only [step, update_ready_status, hl] at hp
          exact h p hp
      | some room =>
          have hroom : P room := h (g, room) (lookupA_mem s.rooms g room hl)
          cases hf : room.users.find? (fun u => u.id == uid) with
          | none =>
              simp only [step, update_ready_status, hl, hf] at hp
              exact h p hp
          | some u0 =>
              cases rd with
              | none =>
                  simp only [step, update_ready_status, hl, hf] at hp
                  exact h p hp
              | some b =>
                  simp only [step, update_ready_status, hl, hf] at hp
                  exact forall_values_setA P s.rooms g _ h (husers room _ hroom) p hp
  | opAttach prm sp cid =>
      intro p hp
      cases prm with
      | none =>
          simp only [step, wsAttach, Option.getD] at hp
          exact h p hp
      | some rid =>
          by_cases he : rid = ""
          · simp only [step, wsAttach, he, if_pos rfl, Option.getD] at hp
            exact h p hp
          · cases hl : lookupA s.rooms rid with
            | none =>
                simp only [step, wsAttach, he, if_neg he, hl, Option.getD] at hp
                exact h p hp
            | some room =>
                have hroom : P room := h (rid, room) (lookupA_mem s.rooms rid room hl)
                by_cases hsolo : room.settings.playerCount = PlayerCountType.solo
                · simp only [step, wsAttach, if_neg he, hl, hsolo, if_pos rfl, Option.getD] at hp
                  exact h p hp
                · by_cases hcap : !sp ∧
                      room.participants.length ≥ PARTICIPANT_LIMITS room.settings.playerCount
                  · simp only [step, wsAttach, if_neg he, hl, if_neg hsolo, if_pos hcap,
                      Option.getD] at hp
                    exact h p hp
                  · cases sp with
                    | true =>
                        simp only [step, wsAttach, if_neg he, hl, if_neg hsolo, if_neg hcap,
                          Option.getD] at hp
                        exact forall_values_setA P s.rooms rid _ h (hspecs room _ hroom) p hp
                    | false =>
                        simp only [step, wsAttach, if_neg he, hl, if_neg hsolo, if_neg hcap,
                          Option.getD] at hp
                        exact forall_values_setA P s.rooms rid _ h (hparts room _ hroom) p hp
  | opMessage rid cid sp m =>
      intro p hp
      cases hl : lookupA s.rooms rid with
      | none =>
          rw [show step s (Op.opMessage rid cid sp m) = (wsIterate s rid cid sp m).1 from rfl,
            wsIterate_fst_none s rid cid sp m hl] at hp
          exact h p hp
      | some room =>
          have hroom : P room := h (rid, room) (lookupA_mem s.rooms rid room hl)
          rw [show step s (Op.opMessage rid cid sp m) = (wsIterate s rid cid sp m).1 from rfl,
            wsIterate_fst s rid cid sp m room hl] at hp
          exact forall_values_setA P s.rooms rid _ h (hmsg room sp m hroom) p hp
  | opDisconnect rid cid sp =>
      intro p hp
      cases hl : lookupA s.rooms rid with
      | none =>
          simp only [step, handleDisconnect, hl] at hp
          exact h p hp
      | some room =>
          have hroom : P room := h (rid, room) (lookupA_mem s.rooms rid room hl)
          cases sp with
          | true =>
              by_cases hmem : cid ∈ room.spectators
              · simp [step, handleDisconnect, hl, hmem] at hp
                refine forall_values_setA P s.rooms rid _ h ?_ p hp
                exact husers { room with spectators := room.spectators.erase cid }
                  (List.filter (fun u => u.id != cid) room.users)
                  (hspecs room (room.spectators.erase cid) hroom)
              · simp [step, handleDisconnect, hl, hmem] at hp
                exact h p hp
          | false =>
              by_cases hmem : cid ∈ room.participants
              · simp [step, handleDisconnect, hl, hmem] at hp
                refine forall_values_setA P s.rooms rid _ h ?_ p hp
                exact husers { room with participants := room.participants.erase cid }
                  (List.filter (fun u => u.id != cid) room.users)
                  (hparts room (room.participants.erase cid) hroom)
              · simp [step, handleDisconnect, hl, hmem] at hp
                exact h p hp

theorem runOps_preserves (P : Room → Prop)
    (hinit : ∀ st, P (initRoom st))
    (hmsg : ∀ room b m, P room → P ((handleMessage room b m).1))
    (hsubmit : ∀ room r, P room → P (applySubmitResult room r))
    (husers : ∀ room us, P room → P { room with users := us })
    (hparts : ∀ room ps, P room → P { room with participants := ps })
    (hspecs : ∀ room ss, P room → P { room with spectators := ss })
    (s : ServerState) (ops : List Op) (h : ∀ p ∈ s.rooms, P p.2) :
    ∀ p ∈ (runOps s ops).rooms, P p.2 := by
  induction ops generalizing s with
  | nil => exact h
  | cons op rest ih =>
      simp only [runOps, List.foldl_cons]
      exact ih (step s op)
        (step_preserves P hinit hmsg hsubmit husers hparts hspecs s op h)

/-- Claim C9: rooms are created with `status = "waiting"` and no core
operation (result submission, join, team/ready updates, channel actions,
attach, disconnect, creation of further rooms) ever changes any stored
room's `status`, so it never becomes ready, in_progress or completed. -/
theorem status_stays_waiting :
    (∀ st, (initRoom st).status = "waiting") ∧
    ∀ s ops, AllWaiting s → AllWaiting (runOps s ops) := by
  constructor
  · intro st
    rfl
  · intro s ops h
    exact runOps_preserves (fun room => room.status = "waiting")
      (fun st => rfl)
      (fun room b m hr => (handleMessage_status room b m).trans hr)
      (fun room r hr => hr)
      (fun room us hr => hr)
      (fun room ps hr => hr)
      (fun room ss hr => hr)
      s ops h

theorem status_stays_waiting_witness :
    AllWaiting stateW ∧
    AllWaiting (runOps stateW
      [Op.opSubmit "r1" resW, Op.opJoin "r1" "n9" (some "nina"),
       Op.opMessage "r1" "a1" false msgSubmitW, Op.opDisconnect "r1" "b2" false]) :=
  ⟨by unfold AllWaiting; decide, status_stays_waiting.2 stateW _ (by unfold AllWaiting; decide)⟩

/-- Claim C10: `createRoom` initialises `currentSet = 1` with empty
`results`, and every reachable state keeps `currentSet = len(results) + 1`:
the only operations touching either field (HTTP result submission and the
in-channel submit_result action) append one result and increment
`currentSet` together. -/
theorem currentSet_tracks_results :
    (∀ st, (initRoom st).currentSet = 1 ∧ (initRoom st).results = []) ∧
    ∀ s ops, SetInvariant s → SetInvariant (runOps s ops) := by
  constructor
  · intro st
    exact ⟨rfl, rfl⟩
  · intro s ops h
    exact runOps_preserves (fun room => room.currentSet = room.results.length + 1)
      (fun st => rfl)
      (fun room b m hr => handleMessage_set_inv room b m hr)
      (fun room r hr => by simp [applySubmitResult, hr])
      (fun room us hr => hr)
      (fun room ps hr => hr)
      (fun room ss hr => hr)
      s ops h

theorem currentSet_tracks_results_witness :
    SetInvariant stateW ∧
    SetInvariant (runOps stateW
      [Op.opSubmit "r1" resW, Op.opMessage "r1" "a1" false msgSubmitW,
       Op.opJoin "r1" "n9" (some "nina")]) :=
  ⟨by unfold SetInvariant; decide,
   currentSet_tracks_results.2 stateW _ (by unfold SetInvariant; decide)⟩

/-- Claim C1: for an existing room, `submit_game_result` returns the
incremented `currentSet` and leaves the stored room with exactly the three
effects applied together — `results` extended by the one new entry,
`currentSet` incremented by 1, `bans` and `picks` empty — and all other
fields untouched (the record-update equality); the same single transition
`applySubmitResult` is what the in-channel `submit_result` action applies.
The Python function body has no await between the mutations, so no
partially-applied state is observable. -/
theorem submit_result_atomic (s : ServerState) (rid : String) (r : GameResult) (room : Room)
    (h : lookupA s.rooms rid = some room) :
    (∃ s2 evs, submit_game_result s rid r = Except.ok (s2, room.currentSet + 1, evs) ∧
      lookupA s2.rooms rid = some
        { room with
            results := room.results ++ [r]
            currentSet := room.currentSet + 1
            bans := []
            picks := [] }) ∧
    (∀ m w sc, m.action = some "submit_result" →
      m.result = some { winner := some w, score := some sc } →
      handleMessage room false m =
        ({ room with
             results := room.results ++ [{ winner := w, score := sc }]
             currentSet := room.currentSet + 1
             bans := []
             picks := [] }, false)) := by
  constructor
  · refine ⟨{ s with rooms := setA s.rooms rid (applySubmitResult room r) }, [], ?_, ?_⟩
    · unfold submit_game_result
      rw [h]
      rfl
    · exact lookupA_setA_self s.rooms rid _
  · intro m w sc hact hres
    unfold handleMessage
    rw [hact, hres]
    simp [applySubmitResult]

theorem submit_result_atomic_witness :
    lookupA stateW.rooms "r1" = some roomW ∧
    (∃ s2 evs, submit_game_result stateW "r1" resW = Except.ok (s2, roomW.currentSet + 1, evs) ∧
      lookupA s2.rooms "r1" = some
        { roomW with
            results := roomW.results ++ [resW]
            currentSet := roomW.currentSet + 1
            bans := []
            picks := [] }) :=
  ⟨rfl, (submit_result_atomic stateW "r1" resW roomW rfl).1⟩

/-- Claim C2: the derived `all_ready` value used by `get_lobby_status` and
by every `broadcast_room_status` send is true iff every user whose team is
not SPECTATOR satisfies `isReady OR isHost`, and appending a SPECTATOR user
never changes it. -/
theorem all_ready_characterisation :
    (∀ s rid st, get_lobby_status s rid = Except.ok st →
        (st.allReady = true ↔
          ∀ u ∈ st.users, u.team ≠ "SPECTATOR" → (u.isReady = true ∨ u.isHost = true))) ∧
    (∀ s rid c st, Event.statusUpdate c st ∈ broadcast_room_status s rid →
        (st.allReady = true ↔
          ∀ u ∈ st.users, u.team ≠ "SPECTATOR" → (u.isReady = true ∨ u.isHost = true))) ∧
    (∀ users u, u.team = "SPECTATOR" → all_ready (users ++ [u]) = all_ready users) := by
  refine ⟨?_, ?_, ?_⟩
  · intro s rid st h
    unfold get_lobby_status at h
    cases hl : lookupA s.rooms rid with
    | none =>
        rw [hl] at h
        cases h
    | some room =>
        rw [hl] at h
        injection h with h2
        subst h2
        exact all_ready_iff room.users
  · intro s rid c st h
    unfold broadcast_room_status at h
    cases hl : lookupA s.rooms rid with
    | none =>
        simp [hl] at h
    | some room =>
        cases hc : lookupA s.connectedClients rid with
        | none =>
            simp [hl, hc] at h
        | some clients =>
            simp only [hl, hc, List.mem_map] at h
            obtain ⟨c2, hc2, heq⟩ := h
            injection heq with h1 h2
            subst h2
            exact all_ready_iff room.users
  · intro users u h
    exact all_ready_append_spectator users u h

theorem all_ready_characterisation_witness :
    (mkLobbyStatus "r1" roomW).allReady = true ∧
    all_ready ([userA, userB] ++ [userS]) = all_ready [userA, userB] :=
  ⟨(all_ready_characterisation.1 stateW "r1" (mkLobbyStatus "r1" roomW) rfl).mpr (by decide),
   all_ready_characterisation.2.2 [userA, userB] userS rfl⟩

/-- Claim C6: `join_lobby` on an existing room appends a user with
defaults team=SPECTATOR, position=-1, isReady=false and
`isHost = (users was empty immediately before the join)`: an empty room
yields a host and any later joiner (non-empty `users`) does not; a missing
room gives the 404 error. -/
theorem join_lobby_spec (s : ServerState) (rid uid nick : String) :
    (lookupA s.rooms rid = none →
      join_lobby s rid uid (some nick) = Except.error "Room not found") ∧
    (∀ room, lookupA s.rooms rid = some room →
      ∃ s2 evs,
        join_lobby s rid uid (some nick) =
          Except.ok (s2,
            { id := uid, nickname := nick, team := "SPECTATOR", position := -1,
              isReady := false, isHost := room.users.length = 0 }, evs) ∧
        lookupA s2.rooms rid = some
          { room with
              users := room.users ++
                [{ id := uid, nickname := nick, team := "SPECTATOR", position := -1,
                   isReady := false, isHost := room.users.length = 0 }] }) ∧
    (∀ room, lookupA s.rooms rid = some room → room.users = [] →
      ∀ s2 u evs, join_lobby s rid uid (some nick) = Except.ok (s2, u, evs) →
        u.isHost = true) ∧
    (∀ room, lookupA s.rooms rid = some room → room.users ≠ [] →
      ∀ s2 u evs, join_lobby s rid uid (some nick) = Except.ok (s2, u, evs) →
        u.isHost = false) := by
  refine ⟨?_, ?_, ?_, ?_⟩
  · intro h
    unfold join_lobby
    rw [h]
  · intro room h
    unfold join_lobby
    rw [h]
    exact ⟨_, _, rfl, lookupA_setA_self s.rooms rid _⟩
  · intro room h hemp s2 u evs heq
    unfold join_lobby at heq
    rw [h] at heq
    simp only [Except.ok.injEq, Prod.mk.injEq] at heq
    obtain ⟨h1, h2, h3⟩ := heq
    rw [← h2]
    simp [hemp]
  · intro room h hne s2 u evs heq
    unfold join_lobby at heq
    rw [h] at heq
    simp only [Except.ok.injEq, Prod.mk.injEq] at heq
    obtain ⟨h1, h2, h3⟩ := heq
    rw [← h2]
    simp [hne]

theorem join_lobby_spec_witness :
    (∃ s2 evs,
      join_lobby stateW "r1" "n9" (some "nina") =
        Except.ok (s2,
          { id := "n9", nickname := "nina", team := "SPECTATOR", position := -1,
            isReady := false, isHost := roomW.users.length = 0 }, evs) ∧
      lookupA s2.rooms "r1" = some
        { roomW with
            users := roomW.users ++
              [{ id := "n9", nickname := "nina", team := "SPECTATOR", position := -1,
                 isReady := false, isHost := roomW.users.length = 0 }] }) :=
  (join_lobby_spec stateW "r1" "n9" "nina").2.1 roomW rfl

/-- Claim C7: an inbound channel message from a spectator, or with an
unrecognised action name, or whose target user id is not in the room
(`update_team` / `update_ready`), leaves the room unchanged and raises
nothing. -/
theorem silent_noop_messages (room : Room) (m : InboundMsg) :
    (handleMessage room true m = (room, false)) ∧
    (m.action ∉ [some "ban", some "pick", some "submit_result", some "update_team",
        some "update_ready"] → handleMessage room false m = (room, false)) ∧
    ((m.action = some "update_team" ∨ m.action = some "update_ready") →
      room.users.find? (fun u => some u.id == m.userId) = none →
      handleMessage room false m = (room, false)) := by
  refine ⟨by simp [handleMessage], ?_, ?_⟩
  · intro hnot
    have h1 : ¬m.action = some "ban" := fun h2 => hnot (by simp [h2])
    have h2 : ¬m.action = some "pick" := fun h3 => hnot (by simp [h3])
    have h3 : ¬m.action = some "submit_result" := fun h4 => hnot (by simp [h4])
    have h4 : ¬m.action = some "update_team" := fun h5 => hnot (by simp [h5])
    have h5 : ¬m.action = some "update_ready" := fun h6 => hnot (by simp [h6])
    simp [handleMessage, h1, h2, h3, h4, h5]
  · intro ha hf
    rcases ha with ha | ha
    · simp [handleMessage, ha, hf]
    · simp [handleMessage, ha, hf]

theorem silent_noop_messages_witness :
    handleMessage roomW true msgSubmitW = (roomW, false) ∧
    handleMessage roomW false msgUnknownW = (roomW, false) ∧
    handleMessage roomW false msgNoTargetW = (roomW, false) :=
  ⟨(silent_noop_messages roomW msgSubmitW).1,
   (silent_noop_messages roomW msgUnknownW).2.1 (by decide),
   (silent_noop_messages roomW msgNoTargetW).2.2 (Or.inl rfl) (by decide)⟩

/-- Claim C5: opening the channel is refused exactly when the room id is
missing/falsy or unknown, the room's mode is solo, or a participant is
attaching while the participant dict already holds the mode's capacity
(under the reachable-state bound `count ≤ capacity`, the code's `>=` test
is an equality test); one-below-capacity participant attaches and
spectator attaches are accepted. -/
theorem attach_refusal_conditions (s : ServerState) (rid cid : String) (sp : Bool) :
    (wsAttach s none sp cid = none) ∧
    (lookupA s.rooms rid = none → wsAttach s (some rid) sp cid = none) ∧
    (∀ room, lookupA s.rooms rid = some room →
      room.participants.length ≤ PARTICIPANT_LIMITS room.settings.playerCount →
      ((wsAttach s (some rid) sp cid = none ↔
          rid = "" ∨ room.settings.playerCount = PlayerCountType.solo ∨
          (sp = false ∧
            room.participants.length = PARTICIPANT_LIMITS room.settings.playerCount)) ∧
       (rid ≠ "" → room.settings.playerCount ≠ PlayerCountType.solo → sp = false →
         room.participants.length + 1 = PARTICIPANT_LIMITS room.settings.playerCount →
         (wsAttach s (some rid) sp cid).isSome = true) ∧
       (rid ≠ "" → room.settings.playerCount ≠ PlayerCountType.solo → sp = true →
         (wsAttach s (some rid) sp cid).isSome = true))) := by
  refine ⟨rfl, ?_, ?_⟩
  · intro h
    by_cases he : rid = ""
    · simp [wsAttach, he]
    · simp [wsAttach, he, h]
  · intro room h hle
    by_cases he : rid = ""
    · refine ⟨?_, ?_, ?_⟩
      · constructor
        · intro _
          exact Or.inl he
        · intro _
          simp [wsAttach, he]
      · intro hne
        exact absurd he hne
      · intro hne
        exact absurd he hne
    · by_cases hsolo : room.settings.playerCount = PlayerCountType.solo
      · refine ⟨?_, ?_, ?_⟩
        · constructor
          · intro _
            exact Or.inr (Or.inl hsolo)
          · intro _
            simp [wsAttach, he, h, hsolo]
        · intro _ hns
          exact absurd hsolo hns
        · intro _ hns
          exact absurd hsolo hns
      · cases sp with
        | true =>
            refine ⟨?_, ?_, ?_⟩
            · constructor
              · intro hnone
                have hs : (wsAttach s (some rid) true cid).isSome = true := by
                  simp [wsAttach, he, h, hsolo]
                rw [hnone] at hs
                cases hs
              · intro hdis
                rcases hdis with h1 | h1 | ⟨h1, h2⟩
                · exact absurd h1 he
                · exact absurd h1 hsolo
                · simp at h1
            · intro _ _ hsp
              simp at hsp
            · intro _ _ _
              simp [wsAttach, he, h, hsolo]
        | false =>
            by_cases hge : room.participants.length ≥ PARTICIPANT_LIMITS room.settings.playerCount
            · have heq : room.participants.length = PARTICIPANT_LIMITS room.settings.playerCount :=
                le_antisymm hle hge
              refine ⟨?_, ?_, ?_⟩
              · constructor
                · intro _
                  exact Or.inr (Or.inr ⟨rfl, heq⟩)
                · intro _
                  simp [wsAttach, he, h, hsolo, hge]
              · intro _ _ _ hplus
                omega
              · intro _ _ hsp
                simp at hsp
            · refine ⟨?_, ?_, ?_⟩
              · constructor
                · intro hnone
                  have hs : (wsAttach s (some rid) false cid).isSome = true := by
                    simp [wsAttach, he, h, hsolo, hge]
                  rw [hnone] at hs
                  cases hs
                · intro hdis
                  rcases hdis with h1 | h1 | ⟨h1, h2⟩
                  · exact absurd h1 he
                  · exact absurd h1 hsolo
                  · omega
              · intro _ _ _ _
                simp [wsAttach, he, h, hsolo, hge]
              · intro _ _ hsp
                simp at hsp

theorem attach_refusal_conditions_witness :
    wsAttach stateW (some "r1") false "c9" = none ∧
    (wsAttach stateW1 (some "r1") false "c9").isSome = true ∧
    (wsAttach stateW (some "r1") true "c9").isSome = true := by
  have h1 := (attach_refusal_conditions stateW "r1" "c9" false).2.2 roomW rfl (by decide)
  have h2 := (attach_refusal_conditions stateW1 "r1" "c9" false).2.2 roomW1 rfl (by decide)
  have h3 := (attach_refusal_conditions stateW "r1" "c9" true).2.2 roomW rfl (by decide)
  exact ⟨h1.1.mpr (Or.inr (Or.inr ⟨rfl, by decide⟩)),
         h2.2.1 (by decide) (by decide) rfl (by decide),
         h3.2.2 (by decide) (by decide) rfl⟩

/-- Claim C4: when the serving task of an attached connection ends with a
transport disconnect, the handler removes the client's LobbyUser from
`users` and issues one final broadcast, delivering the updated roster to
every remaining connected client of the room (and to nobody if none
remain). -/
theorem disconnect_removes_user_and_broadcasts (s : ServerState) (rid cid : String) (sp : Bool)
    (room : Room) (hroom : lookupA s.rooms rid = some room)
    (hmem : cid ∈ (if sp then room.spectators else room.participants)) :
    ∃ s2 room2,
      handleDisconnect s rid cid sp = (s2, false, broadcast_room_status s2 rid) ∧
      lookupA s2.rooms rid = some room2 ∧
      room2.users = room.users.filter (fun u => u.id != cid) ∧
      (lookupA s2.connectedClients rid = none → broadcast_room_status s2 rid = []) ∧
      (∀ l, lookupA s2.connectedClients rid = some l →
        broadcast_room_status s2 rid =
          l.map (fun c => Event.statusUpdate c (mkLobbyStatus rid room2))) := by
  cases sp with
  | true =>
      unfold handleDisconnect
      dsimp only
      rw [hroom]
      dsimp only
      rw [if_pos hmem]
      refine ⟨_, _, rfl, lookupA_setA_self _ _ _, rfl, ?_, ?_⟩
      · intro hcc
        simp [broadcast_room_status, hcc]
      · intro l hcc
        simp [broadcast_room_status, hcc, lookupA_setA_self]
  | false =>
      unfold handleDisconnect
      dsimp only
      rw [hroom]
      dsimp only
      rw [if_pos hmem]
      refine ⟨_, _, rfl, lookupA_setA_self _ _ _, rfl, ?_, ?_⟩
      · intro hcc
        simp [broadcast_room_status, hcc]
      · intro l hcc
        simp [broadcast_room_status, hcc, lookupA_setA_self]

theorem disconnect_removes_user_and_broadcasts_witness :
    ∃ s2 room2,
      handleDisconnect stateD "r1" "c7" true = (s2, false, broadcast_room_status s2 "r1") ∧
      lookupA s2.rooms "r1" = some room2 ∧
      room2.users = roomD.users.filter (fun u => u.id != "c7") := by
  obtain ⟨s2, room2, h1, h2, h3, _, _⟩ :=
    disconnect_removes_user_and_broadcasts stateD "r1" "c7" true roomD rfl (by decide)
  exact ⟨s2, room2, h1, h2, h3⟩

/-- Claim C3 (counterexample): in `stateW` the room's registry holds the
connected clients `a1` and `b2`, yet a successful HTTP `submit_game_result`
performs no send at all — its event list is empty — so a successful result
submission through the HTTP endpoint does not broadcast to the registered
observers (lines 186-199 of `main.py` never call `broadcast_room_status`). -/
theorem http_submit_sends_no_broadcast :
    (∃ s2, submit_game_result stateW "r1" resW = Except.ok (s2, 2, [])) ∧
    lookupA stateW.connectedClients "r1" = some ["a1", "b2"] := by
  constructor
  · exact ⟨_, rfl⟩
  · rfl

/-- Claim C3 (amended): every successful in-channel `submit_result` action
triggers a broadcast of the room status to every connected client of the
room, while the HTTP result-submission endpoint applies the state change
but sends nothing. -/
theorem submit_result_broadcast_channels (s : ServerState) (rid cid : String)
    (m : InboundMsg) (room : Room) (w : String) (sc : List (String × Int))
    (hroom : lookupA s.rooms rid = some room)
    (hact : m.action = some "submit_result")
    (hres : m.result = some { winner := some w, score := some sc }) :
    (∃ s2 evs, wsIterate s rid cid false m = (s2, false, evs) ∧
      s2.connectedClients = s.connectedClients ∧
      (∀ l, lookupA s.connectedClients rid = some l →
        evs = Event.sendRoom cid (applySubmitResult room { winner := w, score := sc }) ::
          l.map (fun c => Event.statusUpdate c
            (mkLobbyStatus rid (applySubmitResult room { winner := w, score := sc }))))) ∧
    (∀ r s3 n evs3, submit_game_result s rid r = Except.ok (s3, n, evs3) → evs3 = []) := by
  constructor
  · have hmsg : handleMessage room false m =
        (applySubmitResult room { winner := w, score := sc }, false) := by
      unfold handleMessage
      rw [hact, hres]
      simp
    unfold wsIterate
    rw [hroom]
    dsimp only
    rw [hmsg]
    dsimp only
    refine ⟨_, _, rfl, rfl, ?_⟩
    intro l hcc
    simp [broadcast_room_status, lookupA_setA_self, hcc]
  · intro r s3 n evs3 heq
    unfold submit_game_result at heq
    rw [hroom] at heq
    simp only [Except.ok.injEq, Prod.mk.injEq] at heq
    exact heq.2.2.symm

theorem submit_result_broadcast_channels_witness :
    ∃ s2 evs, wsIterate stateW "r1" "a1" false msgSubmitW = (s2, false, evs) ∧
      evs = Event.sendRoom "a1" (applySubmitResult roomW resW) ::
        (["a1", "b2"].map (fun c => Event.statusUpdate c
          (mkLobbyStatus "r1" (applySubmitResult roomW resW)))) := by
  obtain ⟨⟨s2, evs, h1, h2, h3⟩, _⟩ :=
    submit_result_broadcast_channels stateW "r1" "a1" msgSubmitW roomW "team1"
      [("team1", 1), ("team2", 0)] rfl rfl rfl
  exact ⟨s2, evs, h1, h3 ["a1", "b2"] rfl⟩

theorem lookupA_removeClient_self (cc : List (String × List String)) (rid cid : String)
    (l : List String) (hl : lookupA cc rid = some l) (hmem : cid ∈ l) :
    lookupA (removeClient cc rid cid) rid =
      (if l.erase cid = [] then none else some (l.erase cid)) := by
  unfold removeClient
  rw [hl]
  dsimp only
  rw [if_pos hmem]
  by_cases h0 : l.erase cid = []
  · rw [if_pos h0, if_pos h0]
    exact lookupA_eraseA_self cc rid
  · rw [if_neg h0, if_neg h0]
    exact lookupA_setA_self cc rid _

theorem removeClient_no_entry (cc : List (String × List String)) (rid cid : String)
    (h : ∀ l, lookupA cc rid = some l → cid ∉ l) :
    removeClient cc rid cid = cc := by
  unfold removeClient
  cases hl : lookupA cc rid with
  | none => rfl
  | some l =>
      dsimp only
      rw [if_neg (h l hl)]

theorem removeClient_idem (cc : List (String × List String)) (rid cid : String)
    (hnd : ∀ l, lookupA cc rid = some l → l.Nodup) :
    removeClient (removeClient cc rid cid) rid cid = removeClient cc rid cid := by
  apply removeClient_no_entry
  intro l2 hl2
  cases hl : lookupA cc rid with
  | none =>
      rw [removeClient_no_entry cc rid cid (by intro l3 h3; rw [hl] at h3; cases h3)] at hl2
      rw [hl] at hl2
      cases hl2
  | some l =>
      by_cases hm : cid ∈ l
      · rw [lookupA_removeClient_self cc rid cid l hl hm] at hl2
        by_cases h0 : l.erase cid = []
        · rw [if_pos h0] at hl2
          cases hl2
        · rw [if_neg h0] at hl2
          injection hl2 with h4
          subst h4
          exact (hnd l hl).not_mem_erase
      · rw [removeClient_no_entry cc rid cid
            (by intro l3 h3; rw [hl] at h3; injection h3 with h4; subst h4; exact hm)] at hl2
        rw [hl] at hl2
        injection hl2 with h4
        subst h4
        exact hm

/-- Claim C8 (counterexample): detaching spectator `c7` from `stateD`
succeeds (no error), but detaching the same (room, client) a second time is
not a no-op: the guarded registry removal does nothing, yet the unguarded
`del room["spectators"][client_id]` raises `KeyError` (error flag true), so
the second detach errors instead of being a no-op. -/
theorem second_detach_raises_keyerror :
    (handleDisconnect stateD "r1" "c7" true).2.1 = false ∧
    (handleDisconnect (handleDisconnect stateD "r1" "c7" true).1 "r1" "c7" true).2.1 = true := by
  constructor
  · rfl
  · rfl

/-- Claim C8 (amended): a first detach removes the transport handle from
the registry (pruning the room's registry entry when it empties) and the
client from its role set, and never removes any room from the room store;
a second detach of the same (roomId, clientId) leaves the registry part
unchanged (that removal is guarded) but raises `KeyError` on the unguarded
role-set `del`, so detach is not idempotent. -/
theorem detach_registry_and_roleset (s : ServerState) (rid cid : String) (sp : Bool)
    (room : Room) (hroom : lookupA s.rooms rid = some room)
    (hmem : cid ∈ (if sp then room.spectators else room.participants))
    (hnd : (if sp then room.spectators else room.participants).Nodup)
    (hcc : ∀ l, lookupA s.connectedClients rid = some l → l.Nodup) :
    (handleDisconnect s rid cid sp).2.1 = false ∧
    (∀ rid2, (lookupA (handleDisconnect s rid cid sp).1.rooms rid2).isSome =
      (lookupA s.rooms rid2).isSome) ∧
    (∃ room2, lookupA (handleDisconnect s rid cid sp).1.rooms rid = some room2 ∧
      (if sp then room2.spectators else room2.participants) =
        (if sp then room.spectators else room.participants).erase cid) ∧
    (∀ l, lookupA s.connectedClients rid = some l → cid ∈ l →
      lookupA (handleDisconnect s rid cid sp).1.connectedClients rid =
        (if l.erase cid = [] then none else some (l.erase cid))) ∧
    handleDisconnect (handleDisconnect s rid cid sp).1 rid cid sp =
      ((handleDisconnect s rid cid sp).1, true, []) := by
  cases sp with
  | true =>
      have hmain : handleDisconnect s rid cid true =
          ({ rooms := setA s.rooms rid
               { room with
                   spectators := room.spectators.erase cid
                   users := room.users.filter (fun u => u.id != cid) },
             connectedClients := removeClient s.connectedClients rid cid },
           false,
           broadcast_room_status
             { rooms := setA s.rooms rid
                 { room with
                     spectators := room.spectators.erase cid
                     users := room.users.filter (fun u => u.id != cid) },
               connectedClients := removeClient s.connectedClients rid cid } rid) := by
        unfold handleDisconnect
        dsimp only
        rw [hroom]
        dsimp only
        rw [if_pos hmem]
        rfl
      refine ⟨?_, ?_, ?_, ?_, ?_⟩
      · rw [hmain]
      · intro rid2
        rw [hmain]
        exact lookupA_setA_isSome s.rooms rid rid2 _ (by rw [hroom]; rfl)
      · refine ⟨{ room with
            spectators := room.spectators.erase cid
            users := room.users.filter (fun u => u.id != cid) }, ?_, ?_⟩
        · rw [hmain]
          exact lookupA_setA_self s.rooms rid _
        · simp
      · intro l hl hm
        rw [hmain]
        exact lookupA_removeClient_self s.connectedClients rid cid l hl hm
      · rw [hmain]
        have hnd2 : room.spectators.Nodup := by simpa using hnd
        conv_lhs => unfold handleDisconnect
        dsimp only
        rw [removeClient_idem s.connectedClients rid cid hcc]
        rw [lookupA_setA_self]
        dsimp only
        rw [if_neg (by simpa using hnd2.not_mem_erase)]
  | false =>
      have hmain : handleDisconnect s rid cid false =
          ({ rooms := setA s.rooms rid
               { room with
                   participants := room.participants.erase cid
                   users := room.users.filter (fun u => u.id != cid) },
             connectedClients := removeClient s.connectedClients rid cid },
           false,
           broadcast_room_status
             { rooms := setA s.rooms rid
                 { room with
                     participants := room.participants.erase cid
                     users := room.users.filter (fun u => u.id != cid) },
               connectedClients := removeClient s.connectedClients rid cid } rid) := by
        unfold handleDisconnect
        dsimp only
        rw [hroom]
        dsimp only
        rw [if_pos hmem]
        rfl
      refine ⟨?_, ?_, ?_, ?_, ?_⟩
      · rw [hmain]
      · intro rid2
        rw [hmain]
        exact lookupA_setA_isSome s.rooms rid rid2 _ (by rw [hroom]; rfl)
      · refine ⟨{ room with
            participants := room.participants.erase cid
            users := room.users.filter (fun u => u.id != cid) }, ?_, ?_⟩
        · rw [hmain]
          exact lookupA_setA_self s.rooms rid _
        · simp
      · intro l hl hm
        rw [hmain]
        exact lookupA_removeClient_self s.connectedClients rid cid l hl hm
      · rw [hmain]
        have hnd2 : room.participants.Nodup := by simpa using hnd
        conv_lhs => unfold handleDisconnect
        dsimp only
        rw [removeClient_idem s.connectedClients rid cid hcc]
        rw [lookupA_setA_self]
        dsimp only
        rw [if_neg (by simpa using hnd2.not_mem_erase)]

theorem detach_registry_and_roleset_witness :
    (handleDisconnect stateD "r1" "c7" true).2.1 = false ∧
    handleDisconnect (handleDisconnect stateD "r1" "c7" true).1 "r1" "c7" true =
      ((handleDisconnect stateD "r1" "c7" true).1, true, []) := by
  have hcc : ∀ l, lookupA stateD.connectedClients "r1" = some l → l.Nodup := by
    intro l hl
    rw [show lookupA stateD.connectedClients "r1" = some ["c7", "d8"] from rfl] at hl
    injection hl with h3
    subst h3
    decide
  have h := detach_registry_and_roleset stateD "r1" "c7" true roomD rfl (by decide)
    (by decide) hcc
  exact ⟨h.1, h.2.2.2.2⟩
